import Mathlib

set_option maxRecDepth 8192
set_option maxHeartbeats 1000000

/-!
Shallow embedding of the package resolution / installation subsystem of
`src/restore.ts` (a GitHub-Actions compiler-cache provisioning action),
together with theorems settling the specification claims against it.

The TypeScript enums, the `Package` class with its derived naming
functions, the fixed artifact catalog, the install strategy engine and
the cache-key builder are translated definition-by-definition.  Effectful
code (shell commands, `io.which` probes, temporary-directory handling) is
embedded as explicit state passing: a computation returns the list of
performed external actions together with an `Except` result, and the
outcomes of external probes and commands are supplied by an `Env` oracle.
-/

namespace CcacheAction

/-- Enumeration VARIANT from restore.ts (two compiler-cache tools). -/
inductive VARIANT
  | SCCACHE
  | CCACHE
deriving DecidableEq, Repr, Fintype

/-- String value of a VARIANT enum member, as in the TypeScript enum. -/
def VARIANT.str : VARIANT → String
  | .SCCACHE => "sccache"
  | .CCACHE => "ccache"

/-- Enumeration ARCH from restore.ts. -/
inductive ARCH
  | X86_64
  | AARCH64
deriving DecidableEq, Repr, Fintype

/-- String value of an ARCH enum member. -/
def ARCH.str : ARCH → String
  | .X86_64 => "x86_64"
  | .AARCH64 => "aarch64"

/-- Enumeration PLATFORM from restore.ts. -/
inductive PLATFORM
  | LINUX
  | WINDOWS
  | DARWIN
deriving DecidableEq, Repr, Fintype

/-- String value of a PLATFORM enum member. -/
def PLATFORM.str : PLATFORM → String
  | .LINUX => "linux"
  | .WINDOWS => "windows"
  | .DARWIN => "darwin"

/-- Enumeration INSTALL_METHOD from restore.ts. -/
inductive INSTALL_METHOD
  | YES
  | BINARY
  | DETECT
  | NO
deriving DecidableEq, Repr, Fintype

/-- The immutable package descriptor (class Package in restore.ts). -/
structure Package where
  variant : VARIANT
  arch : ARCH
  platform : PLATFORM
  sha256 : String
  version : String
deriving DecidableEq, Repr

/-- Package.packageName from restore.ts: the canonical package name.
ccache on darwin is a universal binary, so the architecture is dropped
there; sccache names use a target-triple suffix. -/
def Package.packageName (p : Package) : String :=
  let v := p.version
  if p.variant = VARIANT.CCACHE then
    if p.platform = PLATFORM.DARWIN then
      "ccache-" ++ v ++ "-darwin"
    else
      "ccache-" ++ v ++ "-" ++ p.platform.str ++ "-" ++ p.arch.str
  else
    let suffix :=
      match p.platform with
      | PLATFORM.LINUX => "unknown-linux-musl"
      | PLATFORM.WINDOWS => "pc-windows-msvc"
      | PLATFORM.DARWIN => "apple-darwin"
    "sccache-" ++ v ++ "-" ++ p.arch.str ++ "-" ++ suffix

/-- Package.downloadName from restore.ts: the artifact file name.  The
extension defaults to tar.gz; ccache overrides it to tar.xz on linux and
zip on windows, leaving tar.gz on darwin. -/
def Package.downloadName (p : Package) : String :=
  let base := p.packageName
  let extension :=
    if p.variant = VARIANT.CCACHE then
      match p.platform with
      | PLATFORM.LINUX => "tar.xz"
      | PLATFORM.WINDOWS => "zip"
      | PLATFORM.DARWIN => "tar.gz"
    else
      ("tar.gz")
  base ++ "." ++ extension

/-- Package.downloadUrl from restore.ts: release download URL.  The ccache
release tag is the version prefixed with a literal v; the sccache version
string is used as stored. -/
def Package.downloadUrl (p : Package) : String :=
  let artifact := p.downloadName
  let repo := if p.variant = VARIANT.CCACHE then ("ccache/ccache") else ("mozilla/sccache")
  let version := if p.variant = VARIANT.CCACHE then ("v") ++ p.version else p.version
  "https://github.com/" ++ repo ++ "/releases/download/" ++ version ++ "/" ++ artifact

/-- Architecture key produced by detectArchKey in restore.ts (the literal
strings used to index the catalog tables). -/
inductive ArchKey
  | x64
  | aarch64
deriving DecidableEq, Repr, Fintype

/-- String value of an architecture key. -/
def ArchKey.str : ArchKey → String
  | .x64 => "x64"
  | .aarch64 => "aarch64"

/-- The LINUX catalog table from restore.ts. -/
def LINUX : ArchKey → VARIANT → Package
  | .x64, .CCACHE =>
      ⟨VARIANT.CCACHE, ARCH.X86_64, PLATFORM.LINUX,
        "4fdc966c46448960f3f9d85cf4430d818c1f4b4618ba0b745d000a396d6bc041", "4.12.2"⟩
  | .x64, .SCCACHE =>
      ⟨VARIANT.SCCACHE, ARCH.X86_64, PLATFORM.LINUX,
        "e381a9675f971082a522907b8381c1054777ea60511043e4c67de5dfddff3029", "v0.12.0"⟩
  | .aarch64, .CCACHE =>
      ⟨VARIANT.CCACHE, ARCH.AARCH64, PLATFORM.LINUX,
        "65ccce8cc26ebb1127207fc55cd96443df56a2d6d74bd84f439db2c91c637d06", "4.12.2"⟩
  | .aarch64, .SCCACHE =>
      ⟨VARIANT.SCCACHE, ARCH.AARCH64, PLATFORM.LINUX,
        "2f9a8af7cea98e848f92e865a6d5062cfb8c91feeef17417cdd43276b4c7d8af", "v0.12.0"⟩

/-- The WINDOWS catalog table from restore.ts. -/
def WINDOWS : ArchKey → VARIANT → Package
  | .x64, .CCACHE =>
      ⟨VARIANT.CCACHE, ARCH.X86_64, PLATFORM.WINDOWS,
        "bd73f405e3e80c7f0081ee75dbf9ee44dee64ecfbc3d4316e9a4ede4832f2e41", "4.12.2"⟩
  | .x64, .SCCACHE =>
      ⟨VARIANT.SCCACHE, ARCH.X86_64, PLATFORM.WINDOWS,
        "b0236d379a66b22f6bc9e944adb5b354163015315c3a2aaf7803ce2add758fcd", "v0.12.0"⟩
  | .aarch64, .CCACHE =>
      ⟨VARIANT.CCACHE, ARCH.AARCH64, PLATFORM.WINDOWS,
        "9881a3acf40a5b22eff1c1650b335bd7cf56cf66a6c05cb7d0f53f19b43054f8", "4.12.2"⟩
  | .aarch64, .SCCACHE =>
      ⟨VARIANT.SCCACHE, ARCH.AARCH64, PLATFORM.WINDOWS,
        "0254597932dcc4fa85f67ac149be29941b96a19f8b1bb0bf71b24640641ab987", "v0.12.0"⟩

/-- The DARWIN catalog table from restore.ts. -/
def DARWIN : ArchKey → VARIANT → Package
  | .x64, .CCACHE =>
      ⟨VARIANT.CCACHE, ARCH.X86_64, PLATFORM.DARWIN,
        "3a3429dfd19c206b084204c35667005f0b91cb5716e79cfe7efe796be61a4047", "4.12.2"⟩
  | .x64, .SCCACHE =>
      ⟨VARIANT.SCCACHE, ARCH.X86_64, PLATFORM.DARWIN,
        "dc4b8d99d1aab20d1a2274642444c0bdc3e4a5fb4c6b63c58ff134eea81ccc15", "v0.12.0"⟩
  | .aarch64, .CCACHE =>
      ⟨VARIANT.CCACHE, ARCH.AARCH64, PLATFORM.DARWIN,
        "3a3429dfd19c206b084204c35667005f0b91cb5716e79cfe7efe796be61a4047", "4.12.2"⟩
  | .aarch64, .SCCACHE =>
      ⟨VARIANT.SCCACHE, ARCH.AARCH64, PLATFORM.DARWIN,
        "0a7e14583e7e136c5b2253990e7ce66668c453a845c710b18873e7205ed8c098", "v0.12.0"⟩

/-- Total catalog access: the table selected by the platform switch in
selectPackage, indexed by the architecture key and variant. -/
def catalogPkg : PLATFORM → ArchKey → VARIANT → Package
  | PLATFORM.LINUX => LINUX
  | PLATFORM.WINDOWS => WINDOWS
  | PLATFORM.DARWIN => DARWIN

/-- detectPlatform from restore.ts, with the raw process.platform value
made an explicit argument.  Unknown identifiers produce the explicit
unsupported-platform error, never a default. -/
def detectPlatform (raw : String) : Except String PLATFORM :=
  if raw = "linux" then Except.ok PLATFORM.LINUX
  else if raw = "win32" then Except.ok PLATFORM.WINDOWS
  else if raw = "darwin" then Except.ok PLATFORM.DARWIN
  else Except.error ("Unsupported platform: " ++ raw)

/-- detectArchKey from restore.ts, with the raw process.arch value made an
explicit argument. -/
def detectArchKey (raw : String) : Except String ArchKey :=
  if raw = "x64" then Except.ok ArchKey.x64
  else if raw = "arm64" then Except.ok ArchKey.aarch64
  else Except.error ("Unsupported architecture: " ++ raw)

/-- selectPackage from restore.ts, generalised over the three catalog
tables so that the JavaScript possibly-undefined indexing result (the
`if (entry)` null check) is representable: each table maps an
architecture key to an optional per-variant row. -/
def selectPackageWith
    (tblLinux tblWindows tblDarwin : ArchKey → Option (VARIANT → Package))
    (rawPlatform rawArch : String) (variant : VARIANT) : Except String Package :=
  match detectPlatform rawPlatform with
  | Except.error e => Except.error e
  | Except.ok platform =>
    match detectArchKey rawArch with
    | Except.error e => Except.error e
    | Except.ok archKey =>
      let entry :=
        match platform with
        | PLATFORM.LINUX => tblLinux archKey
        | PLATFORM.WINDOWS => tblWindows archKey
        | PLATFORM.DARWIN => tblDarwin archKey
      match entry with
      | some e => Except.ok (e variant)
      | none =>
          Except.error ("Unsupported package combination: platform=" ++ platform.str
            ++ ", arch=" ++ archKey.str ++ ", variant=" ++ variant.str)

/-- selectPackage from restore.ts over the real catalog tables.  The real
tables hold a row for every architecture key, so the indexing always
succeeds. -/
def selectPackage (rawPlatform rawArch : String) (variant : VARIANT) :
    Except String Package :=
  selectPackageWith (fun a => some (LINUX a)) (fun a => some (WINDOWS a))
    (fun a => some (DARWIN a)) rawPlatform rawArch variant

/-- Result of the cache-key construction in restore (restore.ts lines
472 to 474). -/
structure BuiltKeys where
  primaryKey : String
  restoreKeys : List String
deriving DecidableEq, Repr

/-- Cache-key construction from the restore function in restore.ts.  The
raw append-timestamp input is a string; the source tests it for JavaScript
truthiness, which for strings is non-emptiness. -/
def buildKeys (ccacheVariant : String) (primaryKeyInput : String)
    (restoreKeysInput : List String) (appendTimestampInput : String) : BuiltKeys :=
  let kpfx := ccacheVariant ++ "-"
  let primaryKey :=
    if primaryKeyInput ≠ "" then
      kpfx ++ (if appendTimestampInput ≠ "" then primaryKeyInput ++ "-" else primaryKeyInput)
    else kpfx
  let restoreKeys :=
    restoreKeysInput.map
      (fun k => kpfx ++ k ++ (if appendTimestampInput ≠ "" then ("-") else ("")))
  ⟨primaryKey, restoreKeys⟩

/-- Parsing of the restore-keys input (restore.ts line 468): split on
newlines, trim, drop empties. -/
def parseRestoreKeys (raw : String) : List String :=
  ((raw.splitOn ("\n")).map String.trim).filter (fun x => x ≠ "")

/-- Boolean input parsing of the actions/core library (getBooleanInput),
which restore.ts uses at line 554 to persist the appendTimestamp flag to
cross-phase state.  It accepts the YAML 1.2 core-schema boolean spellings
and rejects everything else. -/
def getBooleanInput (val : String) : Except String Bool :=
  if val = "true" ∨ val = "True" ∨ val = "TRUE" then Except.ok true
  else if val = "false" ∨ val = "False" ∨ val = "FALSE" then Except.ok false
  else Except.error ("Input does not meet YAML 1.2 Core Schema specification: " ++ val)

/-- External actions performed by the installer: shell commands run
through execShell (the sh -xc wrapper), io.which probes, creation and
removal of the temporary download directory, file copies and PATH
prepends. -/
inductive Action
  | exec (cmd : String)
  | which (name : String)
  | mkTmp
  | rmTmp
  | copyFile (src dst : String)
  | addPath (dir : String)
deriving DecidableEq, Repr

/-- Oracle describing the host: results of io.which probes for tools,
success of each shell command (keyed by its text), the io.which results
for the variant binary at the three distinct probe sites (before install,
after a package-manager install, and at the final gate), the
update-package-index input, the hash of the extracted binary, the
USERPROFILE variable and the created temporary directory name. -/
structure Env where
  whichTool : String → Bool
  execOk : String → Bool
  whichVariantPre : Bool
  whichVariantAfterPm : Bool
  whichVariantFinal : Bool
  shouldUpdate : Bool
  fileHash : String
  userProfile : String
  tmpDir : String

/-- An effectful computation: the list of performed actions together with
an Except result.  Actions performed before a failure are kept. -/
@[reducible] def RunM (α : Type) : Type := List Action × Except String α

/-- Sequencing of effectful computations: a failure aborts but keeps the
actions already performed. -/
def RunM.bind {α β : Type} (x : RunM α) (f : α → RunM β) : RunM β :=
  match x with
  | (tr, Except.error e) => (tr, Except.error e)
  | (tr, Except.ok a) =>
    match f a with
    | (tr2, r) => (tr ++ tr2, r)

/-- A pure result with no actions. -/
def RunM.pure {α : Type} (a : α) : RunM α := ([], Except.ok a)

/-- execShell from restore.ts: runs one shell command; the oracle decides
whether it succeeds. -/
def execShell (env : Env) (cmd : String) : RunM Unit :=
  ([Action.exec cmd],
    if env.execOk cmd then Except.ok () else Except.error ("Command failed: " ++ cmd))

/-- execShellSudo from restore.ts: probes for sudo and prefixes the
command with it when present, else runs the command unprivileged. -/
def execShellSudo (env : Env) (cmd : String) : RunM Unit :=
  RunM.bind ([Action.which ("sudo")], Except.ok (env.whichTool ("sudo"))) (fun hasSudo =>
    if hasSudo then execShell env ("$(which sudo) " ++ cmd) else execShell env cmd)

/-- The manager configuration computed by the platform switch in
installPackageManager: update and install command (absent when no manager
matched, mirroring the undefined variables in the source), the sudo flag
and the sccache-availability flag. -/
structure PmSetup where
  updateCmd : Option String
  installCmd : Option String
  needSudo : Bool
  hasSccache : Bool
deriving DecidableEq, Repr

/-- JavaScript template interpolation of a possibly-undefined variable:
an absent command renders as the string undefined. -/
def cmdStr : Option String → String
  | some s => s
  | none => "undefined"

/-- The PLATFORM.LINUX arm of the switch in installPackageManager:
probes apt-get, apk, dnf and pacman in order (first match wins); the dnf
branch runs the epel-release pre-install immediately, outside the
try block, so its failure propagates unwrapped. -/
def linuxPmSetup (env : Env) : RunM PmSetup :=
  RunM.bind ([Action.which ("apt-get")], Except.ok (env.whichTool ("apt-get"))) (fun hasApt =>
  if hasApt then
    RunM.pure ⟨some ("apt-get update"), some ("apt-get install -y"), true, false⟩
  else
    RunM.bind ([Action.which ("apk")], Except.ok (env.whichTool ("apk"))) (fun hasApk =>
    if hasApk then
      RunM.pure ⟨some ("apk update"), some ("apk add"), false, false⟩
    else
      RunM.bind ([Action.which ("dnf")], Except.ok (env.whichTool ("dnf"))) (fun hasDnf =>
      if hasDnf then
        RunM.bind (execShell env ("dnf install -y epel-release")) (fun _ =>
          RunM.pure ⟨some ("dnf check-update"), some ("dnf install -y"), false, true⟩)
      else
        RunM.bind ([Action.which ("pacman")], Except.ok (env.whichTool ("pacman"))) (fun hasPacman =>
        if hasPacman then
          RunM.pure ⟨some ("pacman -Syu --noconfirm --needed"),
            some ("pacman -S --noconfirm --needed"), false, true⟩
        else
          RunM.pure ⟨none, none, false, true⟩))))

/-- getPackageManagerError from restore.ts: wraps a package-manager
command failure into one descriptive error. -/
def getPackageManagerError (error : String) : String :=
  "Failed to install ccache via package manager: \x27" ++ error ++ "\x27. "
    ++ "Perhaps package manager index is not up to date? "
    ++ "(either update it manually before running ccache-action or set \x27update-package-index\x27 option to \x27true\x27)"

/-- The try block of installPackageManager from restore.ts: the optional
index update (when the update-package-index input is set) followed by the
install command, both run through sudo exactly when the manager family
requires elevation. -/
def pmTry (env : Env) (s : PmSetup) (pkg : String) : RunM Unit :=
  let execFunc := if s.needSudo then execShellSudo env else execShell env
  RunM.bind
    (if env.shouldUpdate then execFunc (cmdStr s.updateCmd) else RunM.pure ())
    (fun _ => execFunc (cmdStr s.installCmd ++ " " ++ pkg))

/-- The part of installPackageManager after the platform switch: the
early return when the manager family lacks sccache, the try block (pmTry)
whose failure is rethrown wrapped by getPackageManagerError, and on
command success the io.which probe of the tool as the result. -/
def pmAttempt (env : Env) (s : PmSetup) (pv : VARIANT) : RunM Bool :=
  if pv = VARIANT.SCCACHE ∧ ¬ s.hasSccache then
    RunM.pure false
  else
    match pmTry env s pv.str with
    | (tr, Except.error e) => (tr, Except.error (getPackageManagerError e))
    | (tr, Except.ok _) =>
        (tr ++ [Action.which pv.str], Except.ok env.whichVariantAfterPm)

/-- Package.installPackageManager from restore.ts: windows returns false
immediately; darwin uses the brew commands; linux probes the manager list
(linuxPmSetup); then pmAttempt runs the update and install commands. -/
def installPackageManager (env : Env) (p : Package) : RunM Bool :=
  match p.platform with
  | PLATFORM.WINDOWS => ([], Except.ok false)
  | pf =>
    RunM.bind
      (if pf = PLATFORM.DARWIN then
        RunM.pure ⟨some ("brew update"), some ("brew install"), false, true⟩
      else linuxPmSetup env)
      (fun s => pmAttempt env s p.variant)

/-- String suffix test through character lists, the semantics of the
url.endsWith check of the source, kernel-computable. -/
def strEndsWith (s sfx : String) : Bool := sfx.data.isSuffixOf s.data

/-- Package.downloadAndExtract from restore.ts: create the temporary
download directory, curl the artifact into it, then either unzip and copy
the member out (removing the temporary directory afterwards) or stream
the member out of the tar archive (with cygpath translation on windows).
Paths are joined with a forward slash. -/
def downloadAndExtract (env : Env) (p : Package) (srcFile dstFile : String) : RunM Unit :=
  let url := p.downloadUrl
  let tmp := env.tmpDir
  let dlName := tmp ++ "/" ++ p.downloadName
  RunM.bind ([Action.mkTmp], Except.ok ()) (fun _ =>
  RunM.bind (execShell env ("curl -L \x27" ++ url ++ "\x27 -o \x27" ++ dlName ++ "\x27")) (fun _ =>
  if strEndsWith url (".zip") then
    RunM.bind (execShell env ("unzip \x27" ++ dlName ++ "\x27 -d \x27" ++ tmp ++ "\x27")) (fun _ =>
      ([Action.copyFile (tmp ++ "/" ++ srcFile) dstFile, Action.rmTmp], Except.ok ()))
  else
    if p.platform = PLATFORM.WINDOWS then
      execShell env ("tar xf \"$(cygpath -u " ++ dlName ++ ")\" -O \x27" ++ srcFile
        ++ "\x27 > \x27" ++ dstFile ++ "\x27")
    else
      execShell env ("tar xf \x27" ++ dlName ++ "\x27 -O \x27" ++ srcFile ++ "\x27 > \x27"
        ++ dstFile ++ "\x27")))

/-- checkSha256Sum from restore.ts: compares the hash of the extracted
file (supplied by the oracle) against the descriptor checksum and throws
an error naming both values on mismatch. -/
def checkSha256Sum (env : Env) (path expected : String) : RunM Unit :=
  ([],
    if env.fileHash = expected then Except.ok ()
    else Except.error ("SHA256 of " ++ path ++ " is " ++ env.fileHash
      ++ ", expected " ++ expected))

/-- Package.installBinary from restore.ts: prepend the per-platform
install directory to PATH, download and extract the binary member,
verify its checksum, prepend the directory again, and mark the file
executable. -/
def installBinary (env : Env) (p : Package) : RunM Unit :=
  let isWindows := p.platform = PLATFORM.WINDOWS
  let binDir := if isWindows then env.userProfile ++ "/.cargo/bin" else ("/usr/local/bin")
  let binName := if isWindows then p.variant.str ++ ".exe" else p.variant.str
  let binPath := binDir ++ "/" ++ binName
  RunM.bind ([Action.addPath binDir], Except.ok ()) (fun _ =>
  RunM.bind (downloadAndExtract env p (p.packageName ++ "/" ++ binName) binPath) (fun _ =>
  RunM.bind (checkSha256Sum env binPath p.sha256) (fun _ =>
  RunM.bind ([Action.addPath binDir], Except.ok ()) (fun _ =>
  execShell env ("chmod +x \x27" ++ binPath ++ "\x27")))))

/-- Package.installAuto from restore.ts: attempt the package manager and
fall back to the binary install exactly when the attempt returns false;
an error thrown by the attempt propagates through the await. -/
def installAuto (env : Env) (p : Package) : RunM Unit :=
  RunM.bind (installPackageManager env p) (fun ok =>
    if ok then RunM.pure () else installBinary env p)

/-- The policy switch inside Package.install from restore.ts (everything
before the final io.which gate). -/
def installBody (env : Env) (p : Package) : INSTALL_METHOD → RunM Unit
  | INSTALL_METHOD.YES => installAuto env p
  | INSTALL_METHOD.BINARY => installBinary env p
  | INSTALL_METHOD.DETECT =>
      RunM.bind ([Action.which p.variant.str], Except.ok env.whichVariantPre) (fun found =>
        if found then RunM.pure () else installAuto env p)
  | INSTALL_METHOD.NO => RunM.pure ()

/-- Package.install from restore.ts: run the policy switch, then perform
the single terminal io.which gate and fail fatally when the tool is still
not discoverable. -/
def install (env : Env) (p : Package) (m : INSTALL_METHOD) : RunM Unit :=
  RunM.bind (installBody env p m) (fun _ =>
    ([Action.which p.variant.str],
      if env.whichVariantFinal then Except.ok ()
      else Except.error ("Unable to install " ++ p.variant.str
        ++ ". Check prior logs and file a bug report.")))

/-- Decidable equality for Except results, used to evaluate the embedded
functions on concrete inputs. -/
instance {ε : Type u} {α : Type v} [DecidableEq ε] [DecidableEq α] :
    DecidableEq (Except ε α) := fun a b =>
  match a, b with
  | Except.error e1, Except.error e2 =>
      if h : e1 = e2 then isTrue (h ▸ rfl) else isFalse (fun hh => h (Except.error.inj hh))
  | Except.error _, Except.ok _ => isFalse (fun hh => Except.noConfusion hh)
  | Except.ok _, Except.error _ => isFalse (fun hh => Except.noConfusion hh)
  | Except.ok a1, Except.ok a2 =>
      if h : a1 = a2 then isTrue (h ▸ rfl) else isFalse (fun hh => h (Except.ok.inj hh))

/-- Raw process.platform value of a supported platform. -/
def PLATFORM.raw : PLATFORM → String
  | .LINUX => "linux"
  | .WINDOWS => "win32"
  | .DARWIN => "darwin"

/-- Raw process.arch value of a supported architecture key. -/
def ArchKey.raw : ArchKey → String
  | .x64 => "x64"
  | .aarch64 => "arm64"

/-- A host on which every shell command fails and the tool is nowhere
discoverable; every manager probe reports present. -/
def envAllFail : Env where
  whichTool := (fun _ => true)
  execOk := (fun _ => false)
  whichVariantPre := false
  whichVariantAfterPm := false
  whichVariantFinal := false
  shouldUpdate := false
  fileHash := "0000"
  userProfile := "/home/runner"
  tmpDir := "/tmp/ccacheAB"

/-- A host on which every shell command succeeds but the extracted file
hashes to a wrong value, and no package manager is present. -/
def envHashBad : Env where
  whichTool := (fun _ => false)
  execOk := (fun _ => true)
  whichVariantPre := false
  whichVariantAfterPm := false
  whichVariantFinal := false
  shouldUpdate := false
  fileHash := "0000"
  userProfile := "/home/runner"
  tmpDir := "/tmp/ccacheAB"

/-- A host on which the tool is already discoverable before install. -/
def envDetectFound : Env where
  whichTool := (fun _ => false)
  execOk := (fun _ => true)
  whichVariantPre := true
  whichVariantAfterPm := true
  whichVariantFinal := true
  shouldUpdate := false
  fileHash := "0000"
  userProfile := "/home/runner"
  tmpDir := "/tmp/ccacheAB"

/-- A linux host whose only detected package manager is dnf; commands
succeed. -/
def envDnf : Env where
  whichTool := (fun t => t == "dnf")
  execOk := (fun _ => true)
  whichVariantPre := false
  whichVariantAfterPm := true
  whichVariantFinal := true
  shouldUpdate := false
  fileHash := "0000"
  userProfile := "/home/runner"
  tmpDir := "/tmp/ccacheAB"

/-- The linux x86_64 ccache descriptor. -/
def pkgLinuxCcache : Package := LINUX ArchKey.x64 VARIANT.CCACHE

/-- The linux x86_64 sccache descriptor. -/
def pkgLinuxSccache : Package := LINUX ArchKey.x64 VARIANT.SCCACHE

/-- The darwin x86_64 ccache descriptor. -/
def pkgDarwinCcache : Package := DARWIN ArchKey.x64 VARIANT.CCACHE

/-- Traces compose through bind: the performed actions are those of the
first computation followed, on success, by those of the continuation. -/
theorem RunM.bind_fst {α β : Type} (x : RunM α) (f : α → RunM β) :
    (RunM.bind x f).1
      = x.1 ++ (match x.2 with
                | Except.error _ => []
                | Except.ok a => (f a).1) := by
  obtain ⟨tr, r⟩ := x
  cases r with
  | error e => simp [RunM.bind]
  | ok a =>
    rcases hfa : f a with ⟨tr2, r2⟩
    simp [RunM.bind, hfa]

/-- Binding a successful computation appends the continuation. -/
theorem RunM.bind_ok {α β : Type} (tr : List Action) (a : α) (f : α → RunM β) :
    RunM.bind (tr, Except.ok a) f = (tr ++ (f a).1, (f a).2) := rfl

/-- Binding a failed computation keeps the failure and its trace. -/
theorem RunM.bind_error {α β : Type} (tr : List Action) (e : String) (f : α → RunM β) :
    RunM.bind (tr, Except.error e) f = (tr, Except.error e) := rfl

/-- An action of the first computation stays in the trace of the bind. -/
theorem RunM.mem_bind_left {α β : Type} (x : RunM α) (f : α → RunM β) (a : Action)
    (h : a ∈ x.1) : a ∈ (RunM.bind x f).1 := by
  rw [RunM.bind_fst]
  exact List.mem_append_left _ h

/-- An action in the trace of a bind comes from the first computation or,
after its success with some value, from the continuation. -/
theorem RunM.mem_bind_ok {α β : Type} (x : RunM α) (f : α → RunM β) (a : Action)
    (h : a ∈ (RunM.bind x f).1) :
    a ∈ x.1 ∨ ∃ v, x.2 = Except.ok v ∧ a ∈ (f v).1 := by
  rcases x with ⟨tr, r⟩
  cases r with
  | error e =>
    rw [RunM.bind_error] at h
    exact Or.inl h
  | ok v =>
    rcases hf : f v with ⟨tr2, r2⟩
    rw [RunM.bind_ok, hf] at h
    simp only [List.mem_append] at h
    rcases h with h | h
    · exact Or.inl h
    · exact Or.inr ⟨v, rfl, by rw [hf]; exact h⟩

/-- Every shell command run by execShellSudo is the given command, either
plain or with the sudo prefix. -/
theorem execShellSudo_exec_mem (env : Env) (c0 c : String)
    (h : Action.exec c ∈ (execShellSudo env c0).1) :
    c = "$(which sudo) " ++ c0 ∨ c = c0 := by
  simp only [execShellSudo] at h
  rcases RunM.mem_bind_ok _ _ _ h with h1 | ⟨v, _, h2⟩
  · simp at h1
  · cases v
    · simp [execShell] at h2
      exact Or.inr h2
    · simp [execShell] at h2
      exact Or.inl h2

/-- Every shell command run by the try block is the update command or the
install command of the detected manager, plain or sudo-prefixed. -/
theorem pmTry_exec_mem (env : Env) (s : PmSetup) (pkg c : String)
    (h : Action.exec c ∈ (pmTry env s pkg).1) :
    c = cmdStr s.updateCmd ∨ c = "$(which sudo) " ++ cmdStr s.updateCmd
  ∨ c = cmdStr s.installCmd ++ " " ++ pkg
  ∨ c = "$(which sudo) " ++ (cmdStr s.installCmd ++ " " ++ pkg) := by
  simp only [pmTry] at h
  rcases RunM.mem_bind_ok _ _ _ h with h1 | ⟨v, _, h2⟩
  · by_cases hup : env.shouldUpdate = true
    · rw [if_pos hup] at h1
      by_cases hns : s.needSudo = true
      · rw [if_pos hns] at h1
        rcases execShellSudo_exec_mem env _ _ h1 with h3 | h3
        · exact Or.inr (Or.inl h3)
        · exact Or.inl h3
      · rw [if_neg hns] at h1
        simp [execShell] at h1
        exact Or.inl h1
    · rw [if_neg hup] at h1
      simp [RunM.pure] at h1
  · by_cases hns : s.needSudo = true
    · rw [if_pos hns] at h2
      rcases execShellSudo_exec_mem env _ _ h2 with h3 | h3
      · exact Or.inr (Or.inr (Or.inr h3))
      · exact Or.inr (Or.inr (Or.inl h3))
    · rw [if_neg hns] at h2
      simp [execShell] at h2
      exact Or.inr (Or.inr (Or.inl h2))

/-- Every shell command in the trace of pmAttempt comes from the try
block. -/
theorem pmAttempt_exec_mem (env : Env) (s : PmSetup) (pv : VARIANT) (c : String)
    (h : Action.exec c ∈ (pmAttempt env s pv).1) :
    Action.exec c ∈ (pmTry env s pv.str).1 := by
  simp only [pmAttempt] at h
  by_cases hsc : pv = VARIANT.SCCACHE ∧ ¬ s.hasSccache
  · rw [if_pos hsc] at h
    simp [RunM.pure] at h
  · rw [if_neg hsc] at h
    rcases ht : pmTry env s pv.str with ⟨trT, rT⟩
    rw [ht] at h
    cases rT <;> simp_all [List.mem_append]

/-- Manager detection when apt-get is present. -/
theorem linuxPmSetup_apt (env : Env) (h : env.whichTool ("apt-get") = true) :
    linuxPmSetup env
      = ([Action.which ("apt-get")],
         Except.ok ⟨some ("apt-get update"), some ("apt-get install -y"), true, false⟩) := by
  simp [linuxPmSetup, RunM.bind, RunM.pure, h]

/-- Manager detection when apk is the first present manager. -/
theorem linuxPmSetup_apk (env : Env) (h1 : env.whichTool ("apt-get") = false)
    (h2 : env.whichTool ("apk") = true) :
    linuxPmSetup env
      = ([Action.which ("apt-get"), Action.which ("apk")],
         Except.ok ⟨some ("apk update"), some ("apk add"), false, false⟩) := by
  simp [linuxPmSetup, RunM.bind, RunM.pure, h1, h2]

/-- Manager detection when pacman is the first present manager. -/
theorem linuxPmSetup_pacman (env : Env) (h1 : env.whichTool ("apt-get") = false)
    (h2 : env.whichTool ("apk") = false) (h3 : env.whichTool ("dnf") = false)
    (h4 : env.whichTool ("pacman") = true) :
    linuxPmSetup env
      = ([Action.which ("apt-get"), Action.which ("apk"), Action.which ("dnf"),
          Action.which ("pacman")],
         Except.ok ⟨some ("pacman -Syu --noconfirm --needed"),
           some ("pacman -S --noconfirm --needed"), false, true⟩) := by
  simp [linuxPmSetup, RunM.bind, RunM.pure, h1, h2, h3, h4]

/-- Manager detection when no manager is present: the commands stay
absent (JavaScript undefined). -/
theorem linuxPmSetup_none (env : Env) (h1 : env.whichTool ("apt-get") = false)
    (h2 : env.whichTool ("apk") = false) (h3 : env.whichTool ("dnf") = false)
    (h4 : env.whichTool ("pacman") = false) :
    linuxPmSetup env
      = ([Action.which ("apt-get"), Action.which ("apk"), Action.which ("dnf"),
          Action.which ("pacman")],
         Except.ok ⟨none, none, false, true⟩) := by
  simp [linuxPmSetup, RunM.bind, RunM.pure, h1, h2, h3, h4]

/-- The epel-release pre-install command is in the manager-detection trace
whenever dnf is the first matching manager. -/
theorem linuxPmSetup_dnf_epel (env : Env) (h1 : env.whichTool ("apt-get") = false)
    (h2 : env.whichTool ("apk") = false) (h3 : env.whichTool ("dnf") = true) :
    Action.exec ("dnf install -y epel-release") ∈ (linuxPmSetup env).1 := by
  simp [linuxPmSetup, RunM.bind_fst, execShell, h1, h2, h3, List.mem_append]

/-- C3: cache-key construction is a deterministic pure function of the
variant, primary key, restore-keys list and append-timestamp input: every
key is prefixed with the variant namespace; with the timestamp disabled
the primary abc for variant ccache with fallbacks r1, r2 yields
ccache-abc and ccache-r1, ccache-r2; with it enabled a literal hyphen
marker is appended to the primary and every fallback; and an absent
primary key degrades to exactly the namespace prefix.  The final two
conjuncts characterise the builder on all inputs, exhibiting the
namespace prefix on every key. -/
theorem c3_build_keys (v p ats : String) (rks : List String) :
    buildKeys ("ccache") ("abc") (["r1", "r2"]) ("")
      = ⟨"ccache-abc", ["ccache-r1", "ccache-r2"]⟩
  ∧ buildKeys ("ccache") ("abc") (["r1", "r2"]) ("true")
      = ⟨"ccache-abc-", ["ccache-r1-", "ccache-r2-"]⟩
  ∧ (buildKeys v ("") rks ats).primaryKey = v ++ "-"
  ∧ (buildKeys v p rks ats).primaryKey
      = (v ++ "-") ++ (if p ≠ "" then (if ats ≠ "" then p ++ "-" else p) else (""))
  ∧ (buildKeys v p rks ats).restoreKeys
      = rks.map (fun k => (v ++ "-") ++ (k ++ (if ats ≠ "" then ("-") else ("")))) := by
  refine ⟨by decide, by decide, by simp [buildKeys], ?_, ?_⟩
  · by_cases hp : p = "" <;> by_cases ha : ats = "" <;>
      simp [buildKeys, hp, ha, String.append_assoc]
  · by_cases ha : ats = "" <;> simp [buildKeys, ha, String.append_assoc]

/-- C4: for every supported platform, architecture and variant triple the
resolver returns exactly the one catalog descriptor, and the derived
archive names and URLs follow the variant naming rules: sccache names use
an arch plus target-suffix form with extension tar.gz and the release tag
as stored, while ccache names use ccache-version-platform with an arch
component outside darwin, extension tar.xz on linux, zip on windows and
tar.gz on darwin, and a v-prefixed release tag in the URL. -/
theorem c4_catalog_naming :
    (∀ pl ak vr, selectPackage pl.raw ak.raw vr = Except.ok (catalogPkg pl ak vr))
  ∧ (LINUX ArchKey.aarch64 VARIANT.SCCACHE).downloadName
      = "sccache-v0.12.0-aarch64-unknown-linux-musl.tar.gz"
  ∧ (LINUX ArchKey.aarch64 VARIANT.SCCACHE).downloadUrl
      = "https://github.com/mozilla/sccache/releases/download/v0.12.0/sccache-v0.12.0-aarch64-unknown-linux-musl.tar.gz"
  ∧ (∀ ak, (DARWIN ak VARIANT.CCACHE).downloadName = "ccache-4.12.2-darwin.tar.gz")
  ∧ (DARWIN ArchKey.x64 VARIANT.CCACHE).downloadUrl
      = "https://github.com/ccache/ccache/releases/download/v4.12.2/ccache-4.12.2-darwin.tar.gz"
  ∧ (∀ pl ak, (catalogPkg pl ak VARIANT.SCCACHE).downloadName
      = "sccache-v0.12.0-" ++ (catalogPkg pl ak VARIANT.SCCACHE).arch.str ++ "-"
        ++ (match pl with
            | PLATFORM.LINUX => "unknown-linux-musl"
            | PLATFORM.WINDOWS => "pc-windows-msvc"
            | PLATFORM.DARWIN => "apple-darwin") ++ ".tar.gz")
  ∧ (∀ ak, (LINUX ak VARIANT.CCACHE).downloadName
      = "ccache-4.12.2-linux-" ++ (LINUX ak VARIANT.CCACHE).arch.str ++ ".tar.xz")
  ∧ (∀ ak, (WINDOWS ak VARIANT.CCACHE).downloadName
      = "ccache-4.12.2-windows-" ++ (WINDOWS ak VARIANT.CCACHE).arch.str ++ ".zip") := by
  decide

/-- C6: platform and architecture detection are total over the closed raw
identifier sets: linux, win32 and darwin map to the platform enum, x64
and arm64 to the architecture keys, and every other raw identifier fails
with the explicit unsupported error rather than a default; a supported
pair whose catalog row is absent fails with an error naming the platform,
the architecture and the variant. -/
theorem c6_detection_closed (s t : String)
    (hs1 : s ≠ "linux") (hs2 : s ≠ "win32") (hs3 : s ≠ "darwin")
    (ht1 : t ≠ "x64") (ht2 : t ≠ "arm64") :
    detectPlatform ("linux") = Except.ok PLATFORM.LINUX
  ∧ detectPlatform ("win32") = Except.ok PLATFORM.WINDOWS
  ∧ detectPlatform ("darwin") = Except.ok PLATFORM.DARWIN
  ∧ detectArchKey ("x64") = Except.ok ArchKey.x64
  ∧ detectArchKey ("arm64") = Except.ok ArchKey.aarch64
  ∧ detectPlatform s = Except.error ("Unsupported platform: " ++ s)
  ∧ detectArchKey t = Except.error ("Unsupported architecture: " ++ t)
  ∧ selectPackageWith (fun _ => none) (fun _ => none) (fun _ => none) ("linux") ("x64")
      VARIANT.CCACHE
      = Except.error ("Unsupported package combination: platform=linux, arch=x64, variant=ccache")
  ∧ selectPackageWith (fun _ => none) (fun _ => none) (fun _ => none) ("linux") ("x64")
      VARIANT.SCCACHE
      = Except.error
          ("Unsupported package combination: platform=linux, arch=x64, variant=sccache") := by
  refine ⟨rfl, rfl, rfl, rfl, rfl, ?_, ?_, by decide, by decide⟩
  · simp [detectPlatform, hs1, hs2, hs3]
  · simp [detectArchKey, ht1, ht2]

/-- Witness for c6_detection_closed at the unsupported raw identifiers
freebsd and mips. -/
theorem c6_detection_closed_witness :
    detectPlatform ("freebsd") = Except.error ("Unsupported platform: " ++ "freebsd")
  ∧ detectArchKey ("mips") = Except.error ("Unsupported architecture: " ++ "mips") :=
  ⟨(c6_detection_closed ("freebsd") ("mips") (by decide) (by decide) (by decide)
      (by decide) (by decide)).2.2.2.2.2.1,
   (c6_detection_closed ("freebsd") ("mips") (by decide) (by decide) (by decide)
      (by decide) (by decide)).2.2.2.2.2.2.1⟩

/-- C9: the ccache darwin descriptor collapses the architecture axis: both
architecture rows produce the same package name, archive name and URL,
and carry an identical checksum and version. -/
theorem c9_darwin_universal :
    (DARWIN ArchKey.x64 VARIANT.CCACHE).packageName
      = (DARWIN ArchKey.aarch64 VARIANT.CCACHE).packageName
  ∧ (DARWIN ArchKey.x64 VARIANT.CCACHE).downloadName
      = (DARWIN ArchKey.aarch64 VARIANT.CCACHE).downloadName
  ∧ (DARWIN ArchKey.x64 VARIANT.CCACHE).downloadUrl
      = (DARWIN ArchKey.aarch64 VARIANT.CCACHE).downloadUrl
  ∧ (DARWIN ArchKey.x64 VARIANT.CCACHE).sha256
      = (DARWIN ArchKey.aarch64 VARIANT.CCACHE).sha256
  ∧ (DARWIN ArchKey.x64 VARIANT.CCACHE).version
      = (DARWIN ArchKey.aarch64 VARIANT.CCACHE).version
  ∧ (DARWIN ArchKey.x64 VARIANT.CCACHE).packageName = "ccache-4.12.2-darwin" := by
  decide

/-- C10: the restore-phase key construction decides the timestamp marker
by testing the raw append-timestamp input for non-emptiness, so every
non-empty input, including the literal string false, appends the marker
to the primary and to every fallback, while the value persisted to
cross-phase state is the boolean-parsed input, which maps false to the
boolean false. -/
theorem c10_timestamp_truthiness (v p s : String) (rks : List String) (hs : s ≠ "") :
    buildKeys v p rks s = buildKeys v p rks ("true")
  ∧ getBooleanInput ("false") = Except.ok false
  ∧ getBooleanInput ("true") = Except.ok true
  ∧ buildKeys ("ccache") ("abc") (["r1"]) ("false") = ⟨"ccache-abc-", ["ccache-r1-"]⟩ := by
  refine ⟨?_, by decide, by decide, by decide⟩
  simp [buildKeys, hs]

/-- Witness for c10_timestamp_truthiness at the concrete non-empty input
false. -/
theorem c10_timestamp_truthiness_witness :
    buildKeys ("ccache") ("k") ([]) ("false") = buildKeys ("ccache") ("k") ([]) ("true") :=
  (c10_timestamp_truthiness ("ccache") ("k") ("false") [] (by decide)).1

/-- C1 as stated is false: at this concrete input the package-manager
attempt fails with a command error, installAuto returns the wrapped
package-manager error itself, and no binary-install action (no temporary
download directory creation) takes place. -/
theorem c1_counterexample :
    installAuto envAllFail pkgDarwinCcache
      = ([Action.exec ("brew install ccache")],
         Except.error (getPackageManagerError ("Command failed: brew install ccache")))
  ∧ Action.mkTmp ∉ (installAuto envAllFail pkgDarwinCcache).1 := by
  exact ⟨by decide, by decide⟩

/-- C1 amended: a command failure inside the package-manager attempt is
wrapped and then propagated by installAuto, not swallowed; the fallback
to the binary install happens exactly when the attempt completes without
error and reports false. -/
theorem c1_pm_error_propagates (env : Env) (p : Package) (tr : List Action)
    (r : Except String Bool) (h : installPackageManager env p = (tr, r)) :
    (∀ e, r = Except.error e → installAuto env p = (tr, Except.error e))
  ∧ (r = Except.ok false →
      installAuto env p = (tr ++ (installBinary env p).1, (installBinary env p).2))
  ∧ (r = Except.ok true → installAuto env p = (tr, Except.ok ())) := by
  refine ⟨?_, ?_, ?_⟩
  · intro e he
    subst he
    simp [installAuto, RunM.bind, h]
  · intro he
    subst he
    rcases hib : installBinary env p with ⟨tr2, r2⟩
    simp [installAuto, RunM.bind, h, hib]
  · intro he
    subst he
    simp [installAuto, RunM.bind, RunM.pure, h]

/-- Witness for c1_pm_error_propagates at a concrete failing host. -/
theorem c1_pm_error_propagates_witness :
    installAuto envAllFail pkgDarwinCcache
      = ([Action.exec ("brew install ccache")],
         Except.error (getPackageManagerError ("Command failed: brew install ccache"))) :=
  (c1_pm_error_propagates envAllFail pkgDarwinCcache
      ([Action.exec ("brew install ccache")])
      (Except.error (getPackageManagerError ("Command failed: brew install ccache")))
      (by decide)).1
    (getPackageManagerError ("Command failed: brew install ccache")) rfl

/-- C2 as stated is false: at this concrete input (a tar-style linux
ccache artifact whose extracted file hashes wrong) the installation
fails on the checksum mismatch, yet the temporary download directory was
created and never removed. -/
theorem c2_counterexample :
    (installBinary envHashBad pkgLinuxCcache).2
      = Except.error ("SHA256 of /usr/local/bin/ccache is 0000, expected 4fdc966c46448960f3f9d85cf4430d818c1f4b4618ba0b745d000a396d6bc041")
  ∧ Action.mkTmp ∈ (installBinary envHashBad pkgLinuxCcache).1
  ∧ Action.rmTmp ∉ (installBinary envHashBad pkgLinuxCcache).1 := by
  exact ⟨by decide, by decide, by decide⟩

/-- C2 amended: the temporary download directory is removed only in the
zip-archive extraction path after a successful unzip; for every non-zip
artifact the directory is created and never removed, on success and on
every failure path alike, so a checksum mismatch leaves it behind. -/
theorem c2_tmpdir_left_behind (env : Env) (p : Package) (src dst : String)
    (h : strEndsWith p.downloadUrl (".zip") = false) :
    Action.mkTmp ∈ (downloadAndExtract env p src dst).1
  ∧ Action.rmTmp ∉ (downloadAndExtract env p src dst).1
  ∧ Action.rmTmp ∉ (installBinary env p).1 := by
  have hd : Action.mkTmp ∈ (downloadAndExtract env p src dst).1
      ∧ ∀ q r, Action.rmTmp ∉ (downloadAndExtract env p q r).1 := by
    constructor
    · simp [downloadAndExtract, RunM.bind_fst]
    · intro q r
      simp only [downloadAndExtract, RunM.bind_fst, execShell, h]
      split <;> simp [h]
      split <;> simp
  refine ⟨hd.1, hd.2 src dst, ?_⟩
  intro hmem
  simp only [installBinary] at hmem
  rcases RunM.mem_bind_ok _ _ _ hmem with h1 | ⟨v1, hv1, h2⟩
  · simp at h1
  · rcases RunM.mem_bind_ok _ _ _ h2 with h3 | ⟨v2, hv2, h4⟩
    · exact hd.2 _ _ h3
    · rcases RunM.mem_bind_ok _ _ _ h4 with h5 | ⟨v3, hv3, h6⟩
      · simp [checkSha256Sum] at h5
      · rcases RunM.mem_bind_ok _ _ _ h6 with h7 | ⟨v4, hv4, h8⟩
        · simp at h7
        · simp [execShell] at h8

/-- Witness for c2_tmpdir_left_behind at the linux ccache tar.xz
artifact on a host where commands succeed but the hash is wrong. -/
theorem c2_tmpdir_left_behind_witness :
    Action.mkTmp ∈ (downloadAndExtract envHashBad pkgLinuxCcache ("m") ("d")).1
  ∧ Action.rmTmp ∉ (downloadAndExtract envHashBad pkgLinuxCcache ("m") ("d")).1
  ∧ Action.rmTmp ∉ (installBinary envHashBad pkgLinuxCcache).1 :=
  c2_tmpdir_left_behind envHashBad pkgLinuxCcache ("m") ("d") (by decide)

/-- C5: after the chosen policy branch completes, the engine performs the
single terminal io.which gate exactly once, and installation as a whole
succeeds exactly when that gate reports the tool discoverable, failing
otherwise with the message directing the operator to prior logs and bug
reporting, regardless of which policy branch ran. -/
theorem c5_terminal_gate (env : Env) (p : Package) (m : INSTALL_METHOD)
    (tr : List Action) (h : installBody env p m = (tr, Except.ok ())) :
    install env p m
      = (tr ++ [Action.which p.variant.str],
         if env.whichVariantFinal then Except.ok ()
         else Except.error ("Unable to install " ++ p.variant.str
           ++ ". Check prior logs and file a bug report.")) := by
  simp [install, RunM.bind, h]

/-- Witness for c5_terminal_gate on the never-install policy at a host
without the tool. -/
theorem c5_terminal_gate_witness :
    install envAllFail pkgLinuxCcache INSTALL_METHOD.NO
      = ([Action.which ("ccache")],
         Except.error ("Unable to install ccache. Check prior logs and file a bug report.")) := by
  have h := c5_terminal_gate envAllFail pkgLinuxCcache INSTALL_METHOD.NO [] (by rfl)
  rw [h]
  decide

/-- C7: under the detect-then-install policy, when the tool is already
discoverable the policy body performs no install action at all (no shell
command, no download), and when it is not, the policy body behaves
exactly as the always-install-with-fallback policy after the initial
probe. -/
theorem c7_detect_policy (env : Env) (p : Package) :
    (env.whichVariantPre = true →
       installBody env p INSTALL_METHOD.DETECT
         = ([Action.which p.variant.str], Except.ok ())
     ∧ (∀ c, Action.exec c ∉ (installBody env p INSTALL_METHOD.DETECT).1)
     ∧ Action.mkTmp ∉ (installBody env p INSTALL_METHOD.DETECT).1)
  ∧ (env.whichVariantPre = false →
       installBody env p INSTALL_METHOD.DETECT
         = (Action.which p.variant.str :: (installBody env p INSTALL_METHOD.YES).1,
            (installBody env p INSTALL_METHOD.YES).2)) := by
  constructor
  · intro hpre
    simp [installBody, RunM.bind, RunM.pure, hpre]
  · intro hpre
    rcases hy : installAuto env p with ⟨tr2, r2⟩
    simp [installBody, RunM.bind, hpre, hy]

/-- Witness for c7_detect_policy at a host where the tool is found. -/
theorem c7_detect_policy_witness :
    installBody envDetectFound pkgLinuxCcache INSTALL_METHOD.DETECT
      = ([Action.which ("ccache")], Except.ok ()) :=
  ((c7_detect_policy envDetectFound pkgLinuxCcache).1 rfl).1

/-- C8 as stated is false: the repository-enablement pre-install step
(epel-release) runs for the dnf manager with both variants, not for
exactly one manager/variant combination. -/
theorem c8_counterexample :
    Action.exec ("dnf install -y epel-release")
      ∈ (installPackageManager envDnf pkgLinuxSccache).1
  ∧ Action.exec ("dnf install -y epel-release")
      ∈ (installPackageManager envDnf pkgLinuxCcache).1 := by
  exact ⟨by decide, by decide⟩

/-- C8 amended: the epel-release pre-install step runs exactly when the
platform is linux and dnf is the first matching manager, independently of
the variant; no other manager or platform triggers it. -/
theorem c8_epel_iff (env : Env) (p : Package) :
    (Action.exec ("dnf install -y epel-release") ∈ (installPackageManager env p).1)
  ↔ (p.platform = PLATFORM.LINUX ∧ env.whichTool ("apt-get") = false
     ∧ env.whichTool ("apk") = false ∧ env.whichTool ("dnf") = true) := by
  obtain ⟨vr, ar, pf, sha, ver⟩ := p
  cases pf
  case WINDOWS => simp [installPackageManager]
  case DARWIN =>
    constructor
    · intro hm
      exfalso
      simp only [installPackageManager] at hm
      rcases RunM.mem_bind_ok _ _ _ hm with h1 | ⟨s, hs, h2⟩
      · simp [RunM.pure] at h1
      · simp only [RunM.pure] at hs
        rcases hs with hs
        obtain rfl : s = ⟨some ("brew update"), some ("brew install"), false, true⟩ := by
          exact (Except.ok.inj hs).symm
        have hc := pmTry_exec_mem env _ _ _ (pmAttempt_exec_mem env _ _ _ h2)
        cases vr <;> simp [cmdStr, VARIANT.str] at hc
    · intro hr
      simp at hr
  case LINUX =>
    constructor
    · intro hm
      simp only [installPackageManager] at hm
      by_cases hapt : env.whichTool ("apt-get") = true
      · exfalso
        rw [linuxPmSetup_apt env hapt] at hm
        rcases RunM.mem_bind_ok _ _ _ hm with h1 | ⟨s, hs, h2⟩
        · simp at h1
        · obtain rfl :
              s = ⟨some ("apt-get update"), some ("apt-get install -y"), true, false⟩ := by
            exact (Except.ok.inj hs).symm
          have hc := pmTry_exec_mem env _ _ _ (pmAttempt_exec_mem env _ _ _ h2)
          cases vr <;> simp [cmdStr, VARIANT.str] at hc
      · by_cases hapk : env.whichTool ("apk") = true
        · exfalso
          rw [linuxPmSetup_apk env (by simpa using hapt) hapk] at hm
          rcases RunM.mem_bind_ok _ _ _ hm with h1 | ⟨s, hs, h2⟩
          · simp at h1
          · obtain rfl : s = ⟨some ("apk update"), some ("apk add"), false, false⟩ := by
              exact (Except.ok.inj hs).symm
            have hc := pmTry_exec_mem env _ _ _ (pmAttempt_exec_mem env _ _ _ h2)
            cases vr <;> simp [cmdStr, VARIANT.str] at hc
        · by_cases hdnf : env.whichTool ("dnf") = true
          · exact ⟨rfl, by simpa using hapt, by simpa using hapk, hdnf⟩
          · by_cases hpac : env.whichTool ("pacman") = true
            · exfalso
              rw [linuxPmSetup_pacman env (by simpa using hapt) (by simpa using hapk)
                (by simpa using hdnf) hpac] at hm
              rcases RunM.mem_bind_ok _ _ _ hm with h1 | ⟨s, hs, h2⟩
              · simp at h1
              · obtain rfl :
                    s = ⟨some ("pacman -Syu --noconfirm --needed"),
                      some ("pacman -S --noconfirm --needed"), false, true⟩ := by
                  exact (Except.ok.inj hs).symm
                have hc := pmTry_exec_mem env _ _ _ (pmAttempt_exec_mem env _ _ _ h2)
                cases vr <;> simp [cmdStr, VARIANT.str] at hc
            · exfalso
              rw [linuxPmSetup_none env (by simpa using hapt) (by simpa using hapk)
                (by simpa using hdnf) (by simpa using hpac)] at hm
              rcases RunM.mem_bind_ok _ _ _ hm with h1 | ⟨s, hs, h2⟩
              · simp at h1
              · obtain rfl : s = ⟨none, none, false, true⟩ := by
                  exact (Except.ok.inj hs).symm
                have hc := pmTry_exec_mem env _ _ _ (pmAttempt_exec_mem env _ _ _ h2)
                cases vr <;> simp [cmdStr, VARIANT.str] at hc
    · rintro ⟨-, hapt, hapk, hdnf⟩
      simp only [installPackageManager]
      have hif :
          (if PLATFORM.LINUX = PLATFORM.DARWIN then
            RunM.pure (⟨some ("brew update"), some ("brew install"), false, true⟩ : PmSetup)
          else linuxPmSetup env) = linuxPmSetup env := by
        simp
      rw [hif]
      exact RunM.mem_bind_left _ _ _ (linuxPmSetup_dnf_epel env hapt hapk hdnf)

end CcacheAction
